import Mathlib

/-!
Verification of the Mindmap-mvp text-to-mindmap pipeline.

This file is a shallow embedding, in Lean 4, of the core pipeline of the
repository: src/mindmap_pipeline.py (class MindMapPipeline) and
src/services/ai_pipeline.py (class AIPipelineService).  Remote HTTP calls
(Hugging Face inference endpoints reached through requests.post) are modelled
by oracle functions supplied as explicit arguments: each oracle gives, per
call, either a raised exception or a response carrying a status code and a
parsed JSON body.  A response whose body fails to parse raises inside the
same try block as the request in every call site of the source, so it is
folded into the exception outcome.  NumPy arrays are modelled as Lean lists;
np.random.rand(384) is modelled by a caller-supplied number source so that
only its length (384) is fixed, not its values.  scikit-learn's KMeans is
modelled by an oracle for the returned label vector, together with the fact
that fitting raises when the requested number of clusters is zero (sklearn
validates n_clusters >= 1 and n_samples >= n_clusters).
-/

/-- Parsed JSON values, the shape of response.json() in the source. -/
inductive Json where
  | null
  | bool (b : Bool)
  | num (q : ℚ)
  | str (s : String)
  | arr (elems : List Json)
  | obj (fields : List (String × Json))

instance : Inhabited Json := ⟨Json.null⟩

/-- Outcome of one requests.post call: either the request (or the parsing of
its body) raised, or a response with a status code and parsed JSON body came
back. -/
inductive HttpOutcome where
  | exn
  | resp (status : Nat) (body : Json)

/-- Field lookup on a JSON object; none when the value is not an object or
the key is absent (in Python, a KeyError or TypeError raised inside the
enclosing try block). -/
def Json.lookupField : Json → String → Option Json
  | .obj fields, key => fields.lookup key
  | _, _ => none

/-- String-valued field lookup.  The Python source returns the raw value
unchecked; a present non-string value is folded into the none branch here, a
corner no claim in this development exercises. -/
def Json.lookupStr (j : Json) (key : String) : Option String :=
  match j.lookupField key with
  | some (.str s) => some s
  | _ => none

/-- Numeric field lookup (scores in the classification response). -/
def Json.lookupNum (j : Json) (key : String) : Option ℚ :=
  match j.lookupField key with
  | some (.num q) => some q
  | _ => none

/-- Python str.strip(): drop leading and trailing whitespace. -/
def strip (s : String) : String :=
  String.mk (((s.toList.dropWhile Char.isWhitespace).reverse.dropWhile
    Char.isWhitespace).reverse)

/-- Python s[:n]: the first n characters of a string. -/
def sliceTo (s : String) (n : Nat) : String :=
  String.mk (s.toList.take n)

/-- Splitting of a character list at every occurrence of one of the given
separator characters, keeping empty fragments, as Python str.split(sep) with
a one-character separator does (and as re.split over a character class does,
up to empty fragments that the source filters away right after). -/
def splitCharsAux (seps : List Char) (current : List Char) :
    List Char → List (List Char)
  | [] => [current.reverse]
  | c :: cs =>
    if c ∈ seps then current.reverse :: splitCharsAux seps [] cs
    else splitCharsAux seps (c :: current) cs

/-- Splitting of a string on any of the given separator characters. -/
def splitOnAny (seps : List Char) (s : String) : List String :=
  (splitCharsAux seps [] s.toList).map String.mk

/-- Collapsing of every run of whitespace into one space, after a strip:
re.sub of one-or-more whitespace with a single space in the source. -/
def squashWsAux (prevWs : Bool) : List Char → List Char
  | [] => []
  | c :: cs =>
    if c.isWhitespace then
      if prevWs then squashWsAux true cs else ' ' :: squashWsAux true cs
    else c :: squashWsAux false cs

/-- Model of re.sub applied to the stripped text in preprocess_text. -/
def collapseWhitespace (s : String) : String :=
  String.mk (squashWsAux false (strip s).toList)

/-- List map that passes the position of each element to the function,
starting from a given index (the loop counters of the source). -/
def mapWithIndex (f : Nat → α → β) : Nat → List α → List β
  | _, [] => []
  | i, a :: as => f i a :: mapWithIndex f (i + 1) as

/-- MindMapPipeline.preprocess_text: collapse whitespace, split into
sentences on sentence terminators, keep sentences longer than 10 characters,
split each on commas, semicolons and the word "and" surrounded by spaces
(after whitespace collapsing every whitespace run is a single space, so the
regex alternative matches exactly the literal " and "), and keep fragments
longer than 5 characters. -/
def preprocess_text (text : String) : List String :=
  let text := collapseWhitespace text
  let sentences := splitOnAny ['.', '!', '?'] text
  let sentences := (sentences.map strip).filter (fun s => s.length > 10)
  sentences.foldl (fun phrases sentence =>
    let sub_phrases :=
      ((splitOnAny [',', ';'] sentence).map (fun p => p.splitOn " and ")).flatten
    phrases ++ ((sub_phrases.map strip).filter (fun p => p.length > 5))) []

/-- Synthetic embedding produced by np.random.rand(384).tolist() in the
source: 384 numbers drawn from the caller-supplied source rng, one call
index per failed request. -/
def randVec (rng : Nat → Nat → ℚ) (i : Nat) : List Json :=
  (List.range 384).map (fun j => Json.num (rng i j))

/-- MindMapPipeline.get_embeddings: one request per input text (the oracle
eo gives the outcome of the i-th request).  On a 200 response whose body is
a non-empty JSON list the first element of the body is appended; on any
other status, a body of any other shape, or a raised exception, a synthetic
384-number vector is appended instead.  The final np.array conversion of the
source is modelled as the list itself. -/
def get_embeddings (eo : Nat → HttpOutcome) (rng : Nat → Nat → ℚ)
    (texts : List String) : List Json :=
  mapWithIndex (fun i _text =>
    match eo i with
    | .exn => Json.arr (randVec rng i)
    | .resp status body =>
      if status = 200 then
        match body with
        | .arr (e :: _) => e
        | _ => Json.arr (randVec rng i)
      else Json.arr (randVec rng i)) 0 texts

/-- Failure condition of one embedding request, exactly the branches of
get_embeddings that append the synthetic vector. -/
def embCallFailed : HttpOutcome → Bool
  | .exn => true
  | .resp status body =>
    if status = 200 then
      match body with
      | .arr (_ :: _) => false
      | _ => true
    else true

/-- Exceptions that the modelled pipeline can raise past its per-step
fallbacks: sklearn's KMeans validation error (raised for zero clusters /
zero samples) and the TypeError raised by open(None, "w") at the final
file-writing step of process_text. -/
inductive PipelineError where
  | kmeansError
  | fileWriteError
deriving DecidableEq

/-- Auto-determination of the cluster count in cluster_embeddings when none
is supplied: max_clusters = min(10, max(2, n // 2)); then
max(2, min(max_clusters, n)). -/
def autoClusterCount (n : Nat) : Nat :=
  let max_clusters := min 10 (max 2 (n / 2))
  max 2 (min max_clusters n)

/-- MindMapPipeline.cluster_embeddings: pick the cluster count (the supplied
one, or the auto-determined one), clamp it to the number of points, then fit
KMeans.  The label vector returned by the fit is modelled by the oracle kf
(applied to the point count and the effective cluster count); fitting with
zero clusters raises in sklearn, modelled as the kmeansError outcome.  The
source has no special case for an empty embedding list. -/
def cluster_embeddings (kf : Nat → Nat → List Nat) (embeddings : List Json)
    (n_clusters : Option Nat) : Except PipelineError (List Nat × Nat) :=
  let n := embeddings.length
  let k0 := match n_clusters with
    | none => autoClusterCount n
    | some k => k
  let k := if n < k0 then n else k0
  if k = 0 then .error .kmeansError
  else .ok (kf n k, k)

/-- Candidate topic vocabulary hardcoded in classify_clusters. -/
def candidate_labels : List String :=
  ["Business", "Technology", "Marketing", "Finance", "Education",
   "Health", "Entertainment", "Travel", "Food", "Sports",
   "Science", "Art", "Music", "Politics", "Environment"]

/-- Extraction of the winning label from one classification response:
status 200, body a non-empty list, every item carrying a numeric score
(Python's max raises on a missing key, caught by the enclosing try), the
item with the highest score wins with the first such item kept on ties
(Python's max replaces only on strictly greater), and its label field is
returned.  Any other outcome yields none, the fallback branch. -/
def bestLabelFromOutcome : HttpOutcome → Option String
  | .exn => none
  | .resp status body =>
    if status = 200 then
      match body with
      | .arr (item :: rest) =>
        match (item :: rest).mapM
            (fun it => (it.lookupNum "score").map (fun q => (it, q))) with
        | some (p :: ps) =>
          (ps.foldl (fun b q => if q.2 > b.2 then q else b) p).1.lookupStr "label"
        | _ => none
      | _ => none
    else none

/-- MindMapPipeline.classify_clusters: one zero-shot classification request
per representative text, always against the hardcoded candidate vocabulary;
on any failure the positional fallback label "Cluster i+1".  The
cluster_labels argument is accepted and never read, as in the source. -/
def classify_clusters (co : Nat → String → List String → HttpOutcome)
    (cluster_texts : List String) (cluster_labels : List String) : List String :=
  mapWithIndex (fun i cluster_text =>
    match bestLabelFromOutcome (co i cluster_text candidate_labels) with
    | some label => label
    | none => "Cluster " ++ toString (i + 1)) 0 cluster_texts

/-- Extraction of the summary from one summarization response: status 200,
body a non-empty list whose first item carries the summary text.  Any other
outcome yields none, the truncation branch. -/
def summaryFromOutcome : HttpOutcome → Option String
  | .exn => none
  | .resp status body =>
    if status = 200 then
      match body with
      | .arr (item :: _) => item.lookupStr "summary_text"
      | _ => none
    else none

/-- MindMapPipeline.summarize_text: a string at or under the target length
is returned unchanged with no request issued; otherwise one request is made
(the oracle so gives its outcome per text and target) and on failure the
hard truncation text[:max_length] + "..." is returned. -/
def summarize_text (so : String → Nat → HttpOutcome) (text : String)
    (max_length : Nat) : String :=
  if text.length ≤ max_length then text
  else
    match summaryFromOutcome (so text max_length) with
    | some summary => summary
    | none => sliceTo text max_length ++ "..."

/-- Named entity as built by extract_entities: text = item word field,
label = item entity field. -/
structure Entity where
  text : String
  label : String
deriving DecidableEq

/-- MindMapPipeline.extract_entities: one NER request on the whole raw
text; on a 200 response whose body is a list, every item carrying both an
entity field and a word field becomes an Entity; any other outcome yields
the empty list.  A non-object item would raise in Python and also yield the
empty list through the enclosing try; no claim exercises that corner. -/
def extract_entities (no : String → HttpOutcome) (text : String) : List Entity :=
  match no text with
  | .exn => []
  | .resp status body =>
    if status = 200 then
      match body with
      | .arr items =>
        items.filterMap (fun item =>
          match item.lookupStr "word", item.lookupStr "entity" with
          | some w, some ent => some ⟨w, ent⟩
          | _, _ => none)
      | _ => []
    else []

/-- Insertion into a Python dict-of-lists (d.setdefault-style grouping):
appends the value to the entry of the key if present, otherwise adds a new
entry at the end, so the key order of the dict is first-occurrence order as
in CPython dicts. -/
def dictInsert [DecidableEq α] (d : List (α × List β)) (k : α) (v : β) :
    List (α × List β) :=
  match d with
  | [] => [(k, [v])]
  | (k1, vs) :: rest =>
    if k1 = k then (k1, vs ++ [v]) :: rest else (k1, vs) :: dictInsert rest k v

/-- Keys of a sequence in order of first occurrence: the key order that a
CPython dict built by repeated insertion has.  The first argument holds the
keys already present. -/
def mergeKeys [DecidableEq α] (ks : List α) : List α → List α
  | [] => ks
  | k :: rest => if k ∈ ks then mergeKeys ks rest else mergeKeys (ks ++ [k]) rest

/-- Deduplication keeping first occurrences, in scan order. -/
def firstOccs [DecidableEq α] (l : List α) : List α :=
  mergeKeys [] l

/-- One child node of the output document: a label and its leaf strings. -/
structure ChildNode where
  node : String
  children : List String
deriving DecidableEq

/-- Output document of the pipeline: root label, children, and the metadata
fields that the service layer may add on top of the bare tree (absent on the
bare tree returned by merge_results). -/
structure MindMapDocument where
  root : String
  children : List ChildNode
  generated_at : Option String := none
  source_text_length : Option Nat := none
  ai_processed : Option Bool := none
  fallback_mode : Option Bool := none
deriving DecidableEq

/-- MindMapPipeline.merge_results: group the phrases by cluster id with a
dict (first-occurrence key order); for each group whose id indexes into the
classified labels emit a child node named by that label (summarized at
target 30 when longer than 30 characters) whose children are the first 5
member phrases (each summarized at target 50 when longer than 50
characters); ids beyond the label list are dropped.  When entities exist,
group them by category with a dict and append one node per category after
all cluster nodes, holding the first 5 entity texts. -/
def merge_results (so : String → Nat → HttpOutcome) (texts : List String)
    (cluster_labels : List Nat) (classified_labels : List String)
    (entities : List Entity) : MindMapDocument :=
  let clusters := (texts.zip cluster_labels).foldl
    (fun d p => dictInsert d p.2 p.1) []
  let children := clusters.foldl (fun acc p =>
    if h : p.1 < classified_labels.length then
      let cluster_name := classified_labels.get ⟨p.1, h⟩
      let cluster_name :=
        if cluster_name.length > 30 then summarize_text so cluster_name 30
        else cluster_name
      let cluster_children := (p.2.take 5).map (fun t =>
        if t.length > 50 then summarize_text so t 50 else t)
      acc ++ [⟨cluster_name, cluster_children⟩]
    else acc) []
  let children :=
    if entities.isEmpty then children
    else
      let entity_clusters := entities.foldl
        (fun d e => dictInsert d e.label e.text) []
      children ++ entity_clusters.map (fun p =>
        ⟨"Entities (" ++ p.1 ++ ")", p.2.take 5⟩)
  { root := "Mind Map", children := children }

/-- AIPipelineService._create_fallback_mindmap: split the raw text on
literal periods, strip the pieces and drop the empty ones, then walk the
indices 0, cs, 2cs, ... below the sentence count (Python range(0, n, cs)
with cs = max(1, n // 3), a list of ceil(n / cs) indices) and emit one
"Topic i" node per non-empty chunk, holding the chunk's first 5 sentences;
finally tag the document as a non-AI fallback. -/
def create_fallback_mindmap (now : String) (text : String) : MindMapDocument :=
  let sentences := ((splitOnAny ['.'] text).map strip).filter (fun s => s ≠ "")
  let chunk_size := max 1 (sentences.length / 3)
  let idxs := List.range' 0 ((sentences.length + chunk_size - 1) / chunk_size)
    chunk_size
  let clusters := idxs.foldl (fun acc i =>
    let chunk := (sentences.drop i).take chunk_size
    if chunk.isEmpty then acc
    else acc ++ [⟨"Topic " ++ toString (acc.length + 1), chunk.take 5⟩]) []
  { root := "Mind Map"
    children := clusters
    generated_at := some now
    source_text_length := some text.length
    ai_processed := some false
    fallback_mode := some true }

/-- Behavior of every remote dependency during one pipeline invocation:
outcome of the i-th embedding request, number source for the synthetic
vectors, label vector returned by the KMeans fit, outcome of the i-th
classification request, outcome of each summarization request, outcome of
the NER request. -/
structure RemoteOracles where
  emb : Nat → HttpOutcome
  rng : Nat → Nat → ℚ
  kf : Nat → Nat → List Nat
  cls : Nat → String → List String → HttpOutcome
  sum : String → Nat → HttpOutcome
  ner : String → HttpOutcome

/-- Representative text per cluster in process_text step 4: the members of
cluster i in phrase order, reduced by Python max with key len (first longest
kept), or the empty string for a memberless cluster.  sklearn returns one
label per point, so the positional default of getD is never read in a
modelled run. -/
def clusterRepresentatives (phrases : List String) (cluster_labels : List Nat)
    (n_clusters : Nat) : List String :=
  (List.range n_clusters).map (fun i =>
    let cluster_texts := (List.range phrases.length).filterMap (fun j =>
      if cluster_labels.getD j 0 = i then some (phrases.getD j "") else none)
    match cluster_texts with
    | [] => ""
    | t :: ts => ts.foldl (fun best u =>
        if u.length > best.length then u else best) t)

/-- Step 7 of process_text: open(output_file, "w") and json.dump.  With a
None path, open raises TypeError; with a real path the write is assumed to
succeed (file-system failures are outside the model). -/
def writeOutput (output_file : Option String) : Except PipelineError Unit :=
  match output_file with
  | none => .error .fileWriteError
  | some _ => .ok ()

/-- MindMapPipeline.process_text: preprocess, embed, cluster, classify the
per-cluster representatives, extract entities, merge, then write the result
to output_file and return it.  Uncaught exceptions (the KMeans fit on an
empty phrase list, the file write on a None path) surface as error values. -/
def process_text (o : RemoteOracles) (text : String)
    (output_file : Option String) : Except PipelineError MindMapDocument :=
  let phrases := preprocess_text text
  let embeddings := get_embeddings o.emb o.rng phrases
  match cluster_embeddings o.kf embeddings none with
  | .error e => .error e
  | .ok (cluster_labels, n_clusters) =>
    let cluster_representatives :=
      clusterRepresentatives phrases cluster_labels n_clusters
    let classified_labels := classify_clusters o.cls cluster_representatives
      ((List.range n_clusters).map (fun i => "Cluster " ++ toString (i + 1)))
    let entities := extract_entities o.ner text
    let mindmap := merge_results o.sum phrases cluster_labels
      classified_labels entities
    match writeOutput output_file with
    | .error e => .error e
    | .ok _ => .ok mindmap

/-- AIPipelineService.process_text_to_mindmap: run the pipeline with
output_file=None; on success stamp the metadata (the result of
merge_results is always a dict, so the isinstance guard never fires); on
any exception return the local fallback document.  The argument now stands
for datetime.utcnow().isoformat(). -/
def process_text_to_mindmap (o : RemoteOracles) (now : String)
    (text : String) : MindMapDocument :=
  match process_text o text none with
  | .ok mindmap_data =>
    { mindmap_data with
      generated_at := some now
      source_text_length := some text.length
      ai_processed := some true }
  | .error _ => create_fallback_mindmap now text

/-! Theorems.  Each claim of the specification gets one theorem below; the
helper lemmas in between are shared infrastructure. -/

/-- C10: classify_clusters produces identical output for any two values of
its cluster_labels argument under the same remote behavior, it consults the
oracle only at the hardcoded candidate vocabulary, and that vocabulary is
exactly the 15-entry list
Business/Technology/Marketing/Finance/Education/Health/Entertainment/
Travel/Food/Sports/Science/Art/Music/Politics/Environment. -/
theorem c10_classify_ignores_cluster_labels :
    ∀ (co : Nat → String → List String → HttpOutcome)
      (cluster_texts l1 l2 : List String),
    classify_clusters co cluster_texts l1 = classify_clusters co cluster_texts l2
    ∧ classify_clusters co cluster_texts l1
      = classify_clusters (fun i t _cands => co i t candidate_labels)
          cluster_texts l1
    ∧ candidate_labels
      = ["Business", "Technology", "Marketing", "Finance", "Education",
         "Health", "Entertainment", "Travel", "Food", "Sports",
         "Science", "Art", "Music", "Politics", "Environment"] := by
  intro co cluster_texts l1 l2
  exact ⟨rfl, rfl, rfl⟩

/-- C8: when the input exceeds the target length and the summarization call
fails (exception, non-200 status, or a malformed or empty body, i.e. every
outcome from which no summary text is extracted), summarize_text returns
exactly text[:max_length] + "...". -/
theorem c8_truncation_on_failure :
    ∀ (so : String → Nat → HttpOutcome) (text : String) (max_length : Nat),
    max_length < text.length →
    summaryFromOutcome (so text max_length) = none →
    summarize_text so text max_length = sliceTo text max_length ++ "..." := by
  intro so text max_length hlen hfail
  unfold summarize_text
  rw [if_neg (by omega), hfail]

/-- Witness for C8 at the scenario named by the claim: a 100-character
string, target 50, the remote call raising. -/
theorem c8_truncation_on_failure_witness :
    50 < (String.mk (List.replicate 100 'a')).length
    ∧ summaryFromOutcome
        ((fun (_ : String) (_ : Nat) => HttpOutcome.exn)
          (String.mk (List.replicate 100 'a')) 50) = none
    ∧ summarize_text (fun _ _ => HttpOutcome.exn)
        (String.mk (List.replicate 100 'a')) 50
      = sliceTo (String.mk (List.replicate 100 'a')) 50 ++ "..." := by
  refine ⟨by decide, rfl, ?_⟩
  exact c8_truncation_on_failure (fun _ _ => HttpOutcome.exn)
    (String.mk (List.replicate 100 'a')) 50 (by decide) rfl

/-- C5 counterexample: invoked on zero embeddings, cluster_embeddings does
not return k = 0; the KMeans fit raises (the clamped cluster count is 0),
so the call produces an error, not an ok result carrying k = 0. -/
theorem c5_counterexample_empty_embeddings :
    cluster_embeddings (fun _ _ => ([] : List Nat)) ([] : List Json) none
      = Except.error PipelineError.kmeansError
    ∧ (Except.error PipelineError.kmeansError
        : Except PipelineError (List Nat × Nat))
      ≠ Except.ok (([] : List Nat), 0) :=
  ⟨rfl, fun h => Except.noConfusion h⟩

/-- C5 amended: cluster_embeddings has no special case for zero embeddings;
with an empty embedding list and no explicit count the effective cluster
count clamps to 0 and the KMeans fit raises, so the step errors out (the
exception then propagates to the orchestrator's whole-pipeline fallback)
instead of returning k = 0. -/
theorem c5_amended_empty_embeddings_error :
    ∀ kf : Nat → Nat → List Nat,
    cluster_embeddings kf ([] : List Json) none
      = Except.error PipelineError.kmeansError := by
  intro kf
  rfl

/-- C4: on a non-empty embedding list with no explicit cluster count,
cluster_embeddings succeeds and the effective count k satisfies
1 <= k <= min(10, N) and k <= N. -/
theorem c4_auto_cluster_count_bounds :
    ∀ (kf : Nat → Nat → List Nat) (embeddings : List Json),
    embeddings ≠ [] →
    ∃ ls k, cluster_embeddings kf embeddings none = Except.ok (ls, k)
      ∧ 1 ≤ k ∧ k ≤ min 10 embeddings.length ∧ k ≤ embeddings.length := by
  intro kf embeddings h
  have hn : 1 ≤ embeddings.length := List.length_pos.mpr h
  simp only [cluster_embeddings, autoClusterCount]
  split_ifs with h1 h2 h3 <;> try omega
  · exact ⟨_, _, rfl, by omega, by omega, by omega⟩
  · exact ⟨_, _, rfl, by omega, by omega, by omega⟩

/-- Witness for C4 on a one-element embedding list. -/
theorem c4_auto_cluster_count_bounds_witness :
    ([Json.null] : List Json) ≠ []
    ∧ ∃ ls k,
      cluster_embeddings (fun _ _ => ([0] : List Nat)) [Json.null] none
        = Except.ok (ls, k)
      ∧ 1 ≤ k ∧ k ≤ min 10 ([Json.null] : List Json).length
      ∧ k ≤ ([Json.null] : List Json).length :=
  ⟨by simp, c4_auto_cluster_count_bounds (fun _ _ => ([0] : List Nat))
    [Json.null] (by simp)⟩

/-- Helper: with output_file = None the pipeline always surfaces an
exception: either the KMeans fit raises (empty phrase list) or the final
open(None, "w") raises. -/
lemma process_text_none_errors (o : RemoteOracles) (text : String) :
    ∃ e, process_text o text none = Except.error e := by
  cases h : cluster_embeddings o.kf
      (get_embeddings o.emb o.rng (preprocess_text text)) none with
  | error e => exact ⟨e, by simp [process_text, h]⟩
  | ok p =>
    obtain ⟨ls, k⟩ := p
    exact ⟨.fileWriteError, by simp [process_text, h, writeOutput]⟩

/-- C1: whatever the remote behavior, process_text_to_mindmap is a total
function into MindMapDocument (it never raises), and whenever the inner
pipeline surfaces an exception uncaught by the per-step fallbacks, the
result is the whole-pipeline local fallback document, distinguished by
ai_processed = false. -/
theorem c1_orchestrator_catches_and_falls_back :
    ∀ (o : RemoteOracles) (now text : String) (e : PipelineError),
    process_text o text none = Except.error e →
    process_text_to_mindmap o now text = create_fallback_mindmap now text
    ∧ (process_text_to_mindmap o now text).ai_processed = some false := by
  intro o now text e he
  have h1 : process_text_to_mindmap o now text
      = create_fallback_mindmap now text := by
    simp [process_text_to_mindmap, he]
  refine ⟨h1, ?_⟩
  rw [h1]
  simp [create_fallback_mindmap]

/-- Oracle valuation on which every remote call raises and the KMeans fit
returns an empty label vector; used by concrete witnesses. -/
def oracleAllFail : RemoteOracles where
  emb := fun _ => .exn
  rng := fun _ _ => 0
  kf := fun _ _ => []
  cls := fun _ _ _ => .exn
  sum := fun _ _ => .exn
  ner := fun _ => .exn

/-- Witness for C1: on the input "ab." every phrase is filtered away, the
KMeans fit raises on zero points, and the orchestrator returns the local
fallback document. -/
theorem c1_orchestrator_catches_and_falls_back_witness :
    process_text oracleAllFail "ab." none
      = Except.error PipelineError.kmeansError
    ∧ process_text_to_mindmap oracleAllFail "now" "ab."
        = create_fallback_mindmap "now" "ab."
    ∧ (process_text_to_mindmap oracleAllFail "now" "ab.").ai_processed
        = some false := by
  have h : process_text oracleAllFail "ab." none
      = Except.error PipelineError.kmeansError := by rfl
  exact ⟨h, c1_orchestrator_catches_and_falls_back oracleAllFail "now" "ab."
    PipelineError.kmeansError h⟩

/-- C3: at the process_text_to_mindmap entry point the primary path is
unreachable: process_text is called with output_file=None, the final write
step raises on a None path (when the cluster step has not already raised),
the catch-all replaces the result, and the caller always receives exactly
the fallback document with ai_processed = false and fallback_mode = true. -/
theorem c3_entry_point_always_falls_back :
    ∀ (o : RemoteOracles) (now text : String),
    process_text_to_mindmap o now text = create_fallback_mindmap now text
    ∧ (process_text_to_mindmap o now text).ai_processed = some false
    ∧ (process_text_to_mindmap o now text).fallback_mode = some true := by
  intro o now text
  obtain ⟨e, he⟩ := process_text_none_errors o text
  have h1 : process_text_to_mindmap o now text
      = create_fallback_mindmap now text := by
    simp [process_text_to_mindmap, he]
  refine ⟨h1, ?_, ?_⟩ <;> rw [h1] <;> simp [create_fallback_mindmap]

/-- Helper: length of mapWithIndex. -/
lemma length_mapWithIndex (f : Nat → α → β) :
    ∀ (s : Nat) (l : List α), (mapWithIndex f s l).length = l.length := by
  intro s l
  induction l generalizing s with
  | nil => rfl
  | cons a as ih => simp [mapWithIndex, ih]

/-- Helper: positional access into mapWithIndex. -/
lemma getD_mapWithIndex (f : Nat → α → β) (db : β) (da : α) :
    ∀ (l : List α) (s i : Nat), i < l.length →
    (mapWithIndex f s l).getD i db = f (s + i) (l.getD i da) := by
  intro l
  induction l with
  | nil => intro s i h; simp at h
  | cons a as ih =>
    intro s i h
    cases i with
    | zero => simp [mapWithIndex]
    | succ j =>
      have hj : j < as.length := by simpa using h
      have := ih (s + 1) j hj
      simp only [mapWithIndex, List.getD_cons_succ, this]
      have harith : s + 1 + j = s + (j + 1) := by omega
      rw [harith]

/-- Helper: the i-th entry of get_embeddings, as a function of the i-th
request outcome. -/
lemma get_embeddings_getD (eo : Nat → HttpOutcome) (rng : Nat → Nat → ℚ)
    (texts : List String) (i : Nat) (hi : i < texts.length) :
    (get_embeddings eo rng texts).getD i Json.null
      = match eo i with
        | .exn => Json.arr (randVec rng i)
        | .resp status body =>
          if status = 200 then
            match body with
            | .arr (e :: _) => e
            | _ => Json.arr (randVec rng i)
          else Json.arr (randVec rng i) := by
  unfold get_embeddings
  rw [getD_mapWithIndex _ Json.null "" texts 0 i hi]
  simp only [Nat.zero_add]

/-- Helper: whenever the i-th embedding request fails per embCallFailed,
the i-th output is the synthetic vector. -/
lemma get_embeddings_fallback (eo : Nat → HttpOutcome) (rng : Nat → Nat → ℚ)
    (texts : List String) (i : Nat) (hi : i < texts.length)
    (hf : embCallFailed (eo i) = true) :
    (get_embeddings eo rng texts).getD i Json.null
      = Json.arr (randVec rng i) := by
  rw [get_embeddings_getD eo rng texts i hi]
  cases h : eo i with
  | exn => rfl
  | resp status body =>
    rw [h] at hf
    unfold embCallFailed at hf
    by_cases hs : status = 200
    · simp only [if_pos hs] at hf ⊢
      cases body with
      | arr elems =>
        cases elems with
        | nil => rfl
        | cons e rest => simp at hf
      | null => rfl
      | bool b => rfl
      | num q => rfl
      | str s => rfl
      | obj fields => rfl
    · simp only [if_neg hs]

/-- C2: get_embeddings returns exactly one entry per input phrase
(index-aligned, the lengths agree), and each failed request (exception,
non-200 status, or a body that is not a non-empty list) yields a synthetic
384-dimension vector in place rather than an omission or an abort of the
batch. -/
theorem c2_embeddings_length_and_fallback :
    ∀ (eo : Nat → HttpOutcome) (rng : Nat → Nat → ℚ) (texts : List String),
    (get_embeddings eo rng texts).length = texts.length
    ∧ ∀ i, i < texts.length → embCallFailed (eo i) = true →
      (get_embeddings eo rng texts).getD i Json.null
        = Json.arr (randVec rng i)
      ∧ (randVec rng i).length = 384 := by
  intro eo rng texts
  refine ⟨length_mapWithIndex _ 0 texts, ?_⟩
  intro i hi hf
  exact ⟨get_embeddings_fallback eo rng texts i hi hf, by simp [randVec]⟩

/-- Witness for C2: two phrases, both requests raising; the second entry is
the synthetic 384-dimension vector. -/
theorem c2_embeddings_length_and_fallback_witness :
    (get_embeddings (fun _ => HttpOutcome.exn) (fun _ _ => 0)
        ["x", "y"]).length = (["x", "y"] : List String).length
    ∧ (1 < (["x", "y"] : List String).length)
    ∧ embCallFailed ((fun _ => HttpOutcome.exn) 1) = true
    ∧ (get_embeddings (fun _ => HttpOutcome.exn) (fun _ _ => 0)
        ["x", "y"]).getD 1 Json.null = Json.arr (randVec (fun _ _ => 0) 1)
    ∧ (randVec (fun _ _ => 0) 1).length = 384 := by
  have h := c2_embeddings_length_and_fallback (fun _ => HttpOutcome.exn)
    (fun _ _ => 0) ["x", "y"]
  exact ⟨h.1, by decide, rfl, h.2 1 (by decide) rfl⟩

/-- Helper: the synthetic substitute vector always has 384 entries. -/
lemma randVec_length (rng : Nat → Nat → ℚ) (i : Nat) :
    (randVec rng i).length = 384 := by
  unfold randVec
  rw [List.length_map, List.length_range]

/-- C9 counterexample: a 200 embedding response whose JSON body is the
nested list [[1, 2]] — neither a flat 384-number vector nor a nested
single-element list containing one — is not treated as a failure: the
Embedder uses its first element, a 2-entry list, as the phrase's embedding
rather than substituting a synthetic 384-dimension vector. -/
theorem c9_counterexample_malformed_body_used :
    (get_embeddings
        (fun _ => HttpOutcome.resp 200
          (Json.arr [Json.arr [Json.num 1, Json.num 2]]))
        (fun _ _ => 0) ["hello"]).getD 0 Json.null
      = Json.arr [Json.num 1, Json.num 2]
    ∧ Json.arr [Json.num 1, Json.num 2]
        ≠ Json.arr (randVec (fun _ _ => 0) 0)
    ∧ (randVec (fun _ _ => 0) 0).length = 384 := by
  refine ⟨rfl, ?_, randVec_length _ 0⟩
  intro h
  have h2 : ([Json.num 1, Json.num 2] : List Json).length
      = (randVec (fun _ _ => 0) 0).length := by
    rw [Json.arr.injEq] at h
    rw [h]
  rw [randVec_length] at h2
  simp at h2

/-- C9 amended: on a 200 response the Embedder uses the first element of
the JSON body whenever the body is any non-empty list, regardless of shape
or dimension; only an exception, a non-200 status, or a body that is not a
non-empty list triggers the synthetic 384-dimension substitute. -/
theorem c9_amended_embedding_response_handling :
    ∀ (eo : Nat → HttpOutcome) (rng : Nat → Nat → ℚ) (texts : List String)
      (i : Nat), i < texts.length →
    (∀ e rest, eo i = HttpOutcome.resp 200 (Json.arr (e :: rest)) →
      (get_embeddings eo rng texts).getD i Json.null = e)
    ∧ (embCallFailed (eo i) = true →
      (get_embeddings eo rng texts).getD i Json.null
        = Json.arr (randVec rng i)
      ∧ (randVec rng i).length = 384) := by
  intro eo rng texts i hi
  constructor
  · intro e rest h
    rw [get_embeddings_getD eo rng texts i hi, h]
    rfl
  · intro hf
    exact ⟨get_embeddings_fallback eo rng texts i hi hf, randVec_length rng i⟩

/-- Witness for C9 amended: a single phrase whose 200 response carries the
non-empty list [[1, 2]]; the first element is used verbatim. -/
theorem c9_amended_embedding_response_handling_witness :
    (0 < (["hello"] : List String).length)
    ∧ (get_embeddings
        (fun _ => HttpOutcome.resp 200
          (Json.arr [Json.arr [Json.num 1, Json.num 2]]))
        (fun _ _ => 0) ["hello"]).getD 0 Json.null
      = Json.arr [Json.num 1, Json.num 2] := by
  refine ⟨by decide, ?_⟩
  exact (c9_amended_embedding_response_handling
      (fun _ => HttpOutcome.resp 200
        (Json.arr [Json.arr [Json.num 1, Json.num 2]]))
      (fun _ _ => 0) ["hello"] 0 (by decide)).1
    (Json.arr [Json.num 1, Json.num 2]) [] rfl

/-- Helper: key list of a dict after one insertion — unchanged when the key
is present, the key appended at the end when new. -/
lemma dictInsert_keys [DecidableEq α] (k : α) (v : β) :
    ∀ (d : List (α × List β)),
    (dictInsert d k v).map Prod.fst
      = if k ∈ d.map Prod.fst then d.map Prod.fst
        else d.map Prod.fst ++ [k] := by
  intro d
  induction d with
  | nil => simp [dictInsert]
  | cons p rest ih =>
    obtain ⟨k1, vs⟩ := p
    by_cases hk : k1 = k
    · subst hk
      simp [dictInsert]
    · simp only [dictInsert, if_neg hk, List.map_cons, ih]
      by_cases hmem : k ∈ rest.map Prod.fst
      · simp [hmem, List.mem_cons]
      · simp [hmem, List.mem_cons, Ne.symm hk]

/-- Helper: key order of the phrase-grouping dict built by merge_results —
cluster ids in first-occurrence order of the zipped phrase/label pairs. -/
lemma foldl_dictInsert_snd_keys [DecidableEq α] :
    ∀ (ps : List (β × α)) (d : List (α × List β)),
    ((ps.foldl (fun d p => dictInsert d p.2 p.1) d).map Prod.fst)
      = mergeKeys (d.map Prod.fst) (ps.map Prod.snd) := by
  intro ps
  induction ps with
  | nil => intro d; rfl
  | cons p rest ih =>
    intro d
    simp only [List.foldl_cons, List.map_cons]
    rw [ih, dictInsert_keys]
    simp only [mergeKeys]
    split_ifs <;> rfl

/-- Helper: key order of the entity-grouping dict built by merge_results —
entity categories in first-occurrence order of the entity list. -/
lemma foldl_dictInsert_entity_keys :
    ∀ (es : List Entity) (d : List (String × List String)),
    ((es.foldl (fun d e => dictInsert d e.label e.text) d).map Prod.fst)
      = mergeKeys (d.map Prod.fst) (es.map Entity.label) := by
  intro es
  induction es with
  | nil => intro d; rfl
  | cons e rest ih =>
    intro d
    simp only [List.foldl_cons, List.map_cons]
    rw [ih, dictInsert_keys]
    simp only [mergeKeys]
    split_ifs <;> rfl

/-- Helper: node labels produced by the cluster-children fold of
merge_results, as a function of the dict's key order. -/
lemma cluster_fold_nodes (so : String → Nat → HttpOutcome)
    (classified_labels : List String) :
    ∀ (clusters : List (Nat × List String)) (acc : List ChildNode),
    ((clusters.foldl (fun acc p =>
        if h : p.1 < classified_labels.length then
          let cluster_name := classified_labels.get ⟨p.1, h⟩
          let cluster_name :=
            if cluster_name.length > 30 then summarize_text so cluster_name 30
            else cluster_name
          let cluster_children := (p.2.take 5).map (fun t =>
            if t.length > 50 then summarize_text so t 50 else t)
          acc ++ [⟨cluster_name, cluster_children⟩]
        else acc) acc).map ChildNode.node)
      = acc.map ChildNode.node
        ++ (clusters.map Prod.fst).filterMap (fun cid =>
            if cid < classified_labels.length then
              some (if (classified_labels.getD cid "").length > 30 then
                      summarize_text so (classified_labels.getD cid "") 30
                    else classified_labels.getD cid "")
            else none) := by
  intro clusters
  induction clusters with
  | nil => intro acc; simp
  | cons p rest ih =>
    intro acc
    by_cases h : p.1 < classified_labels.length
    · simp only [List.foldl_cons, dif_pos h, List.map_cons,
        List.filterMap_cons, if_pos h]
      rw [ih]
      simp [List.getD, List.get_eq_getElem, List.getElem?_eq_getElem h]
    · simp only [List.foldl_cons, dif_neg h, List.map_cons,
        List.filterMap_cons, if_neg h]
      exact ih acc

/-- C6 counterexample: with cluster assignment [1, 0] (cluster id 1 occurs
first) the cluster-derived child nodes of merge_results come out in
first-occurrence order ["Beta", "Alpha"], not in ascending cluster-id order
["Alpha", "Beta"]. -/
theorem c6_counterexample_cluster_order :
    (merge_results (fun _ _ => HttpOutcome.exn) ["aaaaaa", "bbbbbb"] [1, 0]
        ["Alpha", "Beta"] []).children.map ChildNode.node = ["Beta", "Alpha"]
    ∧ (["Beta", "Alpha"] : List String) ≠ ["Alpha", "Beta"] := by
  exact ⟨rfl, by decide⟩

/-- C6 amended: in the document produced by merge_results the
cluster-derived child nodes appear in order of first occurrence of each
cluster id in the assignment (CPython dict key order), with ids outside the
label list dropped — not in ascending cluster-id order — and the entity
child nodes are appended after all cluster nodes, in the order in which
each entity category is first encountered while scanning the entity
list. -/
theorem c6_amended_children_order :
    ∀ (so : String → Nat → HttpOutcome) (texts : List String)
      (cluster_labels : List Nat) (classified_labels : List String)
      (entities : List Entity),
    (merge_results so texts cluster_labels classified_labels
        entities).children.map ChildNode.node
      = (firstOccs ((texts.zip cluster_labels).map Prod.snd)).filterMap
          (fun cid =>
            if cid < classified_labels.length then
              some (if (classified_labels.getD cid "").length > 30 then
                      summarize_text so (classified_labels.getD cid "") 30
                    else classified_labels.getD cid "")
            else none)
        ++ (firstOccs (entities.map Entity.label)).map
            (fun c => "Entities (" ++ c ++ ")") := by
  intro so texts cluster_labels classified_labels entities
  simp only [merge_results, firstOccs]
  by_cases he : entities.isEmpty
  · have he2 : entities = [] := by simpa [List.isEmpty_iff] using he
    subst he2
    rw [if_pos List.isEmpty_nil]
    rw [cluster_fold_nodes so classified_labels _ []]
    rw [foldl_dictInsert_snd_keys]
    simp [mergeKeys]
  · rw [if_neg (by simpa using he)]
    rw [List.map_append]
    rw [cluster_fold_nodes so classified_labels _ []]
    rw [foldl_dictInsert_snd_keys]
    rw [List.map_map]
    have hent : List.map
        (ChildNode.node ∘ fun p =>
          ChildNode.mk ("Entities (" ++ p.1 ++ ")") (List.take 5 p.2))
        (entities.foldl (fun d e => dictInsert d e.label e.text) [])
        = List.map ((fun c => "Entities (" ++ c ++ ")") ∘ Prod.fst)
          (entities.foldl (fun d e => dictInsert d e.label e.text) []) := by
      apply List.map_congr_left
      intro a _
      rfl
    rw [hent, ← List.map_map, foldl_dictInsert_entity_keys]
    simp

/-- Helper: the Topic-numbering fold of create_fallback_mindmap, when every
visited chunk is non-empty, appends one node per index with consecutive
1-based numbers. -/
lemma fallback_fold (sentences : List String) (chunk_size : Nat) :
    ∀ (idxs : List Nat) (acc : List ChildNode),
    (∀ i ∈ idxs, ((sentences.drop i).take chunk_size).isEmpty = false) →
    idxs.foldl (fun acc i =>
        if ((sentences.drop i).take chunk_size).isEmpty then acc
        else acc ++ [⟨"Topic " ++ toString (acc.length + 1),
          ((sentences.drop i).take chunk_size).take 5⟩])
      acc
      = acc ++ mapWithIndex (fun j i =>
          ⟨"Topic " ++ toString (j + 1),
            ((sentences.drop i).take chunk_size).take 5⟩) acc.length idxs := by
  intro idxs
  induction idxs with
  | nil =>
    intro acc h
    simp [mapWithIndex]
  | cons i rest ih =>
    intro acc h
    have hi := h i (List.mem_cons_self i rest)
    simp only [List.foldl_cons, mapWithIndex]
    rw [if_neg (by simp [hi])]
    rw [ih _ (fun j hj => h j (List.mem_cons_of_mem i hj))]
    simp

/-- Helper: indexed map over a stepped index range, in closed form. -/
lemma mapWithIndex_range' {β : Type} (f : Nat → Nat → β) (step : Nat) :
    ∀ (count s j0 : Nat),
    mapWithIndex f j0 (List.range' s count step)
      = (List.range count).map (fun t => f (j0 + t) (s + t * step)) := by
  intro count
  induction count with
  | zero => intro s j0; rfl
  | succ c ih =>
    intro s j0
    rw [List.range'_succ]
    simp only [mapWithIndex]
    rw [ih (s + step) (j0 + 1)]
    rw [List.range_succ_eq_map]
    simp only [List.map_cons, List.map_map]
    congr 1
    · simp
    · apply List.map_congr_left
      intro t ht
      simp only [Function.comp]
      have h1 : j0 + 1 + t = j0 + (t + 1) := by omega
      have h2 : s + step + t * step = s + (t + 1) * step := by
        rw [Nat.succ_mul]
        omega
      rw [h1, h2]

/-- C7 counterexample: a text with five period-separated sentences yields
five Topic nodes in the whole-pipeline fallback, not a partition into 3
chunks (chunk size max(1, 5 // 3) = 1 gives ceil(5 / 1) = 5 chunks). -/
theorem c7_counterexample_five_chunks :
    (create_fallback_mindmap "t" "aa.bb.cc.dd.ee").children.length = 5
    ∧ (5 : Nat) ≠ 3 :=
  ⟨rfl, by decide⟩

/-- C7 amended: the whole-pipeline fallback splits the text on literal
periods, strips the pieces and discards the empty ones, partitions the
surviving sentence list into contiguous chunks of size
max(1, len(sentences) // 3) — which yields ceil(len / chunk_size) chunks,
3 only for some lengths, up to 5 for others — and returns root "Mind Map"
with one child {node: "Topic N", children: chunk[:5]} per chunk (N the
1-based chunk position), tagged ai_processed = false and
fallback_mode = true. -/
theorem c7_amended_fallback_structure :
    ∀ (now text : String),
    create_fallback_mindmap now text
      = (let sentences := ((splitOnAny ['.'] text).map strip).filter
            (fun s => s ≠ "")
         let chunk_size := max 1 (sentences.length / 3)
         { root := "Mind Map"
           children := (List.range
               ((sentences.length + chunk_size - 1) / chunk_size)).map
             (fun j =>
               ⟨"Topic " ++ toString (j + 1),
                 ((sentences.drop (j * chunk_size)).take chunk_size).take 5⟩)
           generated_at := some now
           source_text_length := some text.length
           ai_processed := some false
           fallback_mode := some true }) := by
  intro now text
  simp only [create_fallback_mindmap]
  congr 1
  set S := ((splitOnAny ['.'] text).map strip).filter (fun s => s ≠ "")
    with hS
  set cs := max 1 (S.length / 3) with hcs
  set K := (S.length + cs - 1) / cs with hK
  have hcs1 : 1 ≤ cs := le_max_left 1 _
  have hne : ∀ i ∈ List.range' 0 K cs, ((S.drop i).take cs).isEmpty = false := by
    intro i hi
    rw [List.mem_range'] at hi
    obtain ⟨t, ht, rfl⟩ := hi
    have h2 : K * cs ≤ S.length + cs - 1 := by
      rw [hK]
      exact Nat.div_mul_le_self _ _
    have h1 : (t + 1) * cs ≤ K * cs := Nat.mul_le_mul_right cs ht
    have h3 : (t + 1) * cs = t * cs + cs := Nat.succ_mul t cs
    have h4 : cs * t = t * cs := Nat.mul_comm cs t
    have hlt : 0 + cs * t < S.length := by omega
    by_cases hemp : ((S.drop (0 + cs * t)).take cs).isEmpty = true
    · exfalso
      have hnil := List.isEmpty_iff.mp hemp
      rcases List.take_eq_nil_iff.mp hnil with hcs0 | hdrop
      · omega
      · have := List.drop_eq_nil_iff.mp hdrop
        omega
    · simpa using hemp
  rw [fallback_fold S cs (List.range' 0 K cs) [] hne]
  rw [mapWithIndex_range']
  simp only [List.nil_append, List.length_nil, Nat.zero_add]
